import Mathlib

/-!
Shallow embedding of the SpectraQ agent backend
(`backend/app/services/agent_service.py`, `agent_service_mvp.py`,
`mcp_manager.py`, `mcp_manager_mvp.py`, `gemini_client.py`) together with
theorems about the query-processing pipeline: query classification, tool
dispatch, tool-result aggregation, confidence scoring, session context and
the streaming event sequence.

Python floats that only ever hold small decimal constants and their
products are modelled as rationals (`ℚ`); Python dicts keyed by strings are
modelled as association lists with overwrite-on-insert semantics; a Python
function that may raise is modelled as returning an `Except`/sum type, and
the behaviour of external effects (network calls, the LLM, the random mock
generator) is passed in as an explicit argument.
-/

instance {ε α : Type} [DecidableEq ε] [DecidableEq α] : DecidableEq (Except ε α) := fun
  | .ok a, .ok b =>
    if h : a = b then .isTrue (by rw [h]) else .isFalse (by simp [h])
  | .ok _, .error _ => .isFalse (by simp)
  | .error _, .ok _ => .isFalse (by simp)
  | .error e, .error f =>
    if h : e = f then .isTrue (by rw [h]) else .isFalse (by simp [h])

namespace Spectra

/-- The `QueryType` enum of `backend/app/schemas/agent.py`.  Note the enum
has no `COMPLIANCE_AUDIT` member, although `agent_service.py` references
`QueryType.COMPLIANCE_AUDIT`. -/
inductive QueryType where
  | marketAnalysis
  | pricePrediction
  | newsSentiment
  | onChainAnalysis
  | generalCrypto
  | tradingAdvice
deriving DecidableEq, Repr

/-- A tool result: a Python dict observed only through its string keys and
(serialised) values. -/
abbrev MCPResult := List (String × String)

/-- The `ToolCall` schema of `backend/app/schemas/agent.py` (fields relevant
to the pipeline). -/
structure ToolCall where
  toolName : String
  parameters : List (String × String)
  result : Option MCPResult
  error : Option String
deriving DecidableEq, Repr

/-- A tool-invocation descriptor as produced by `_analyze_query`:
`{"server": ..., "tool": ..., "parameters": ...}`. -/
structure ToolInfo where
  server : String
  tool : String
  parameters : List (String × String)
deriving DecidableEq, Repr

/-- Python truthiness of `tool.error` (an `Optional[str]`): `None` and the
empty string are falsy. -/
def errFalsy : Option String → Bool
  | none => true
  | some s => s = ""

/-- `sum(1 for tool in tools_used if not tool.error)` in
`_calculate_confidence_score`. -/
def successfulTools (ts : List ToolCall) : Nat :=
  (ts.filter (fun t => errFalsy t.error)).length

/-- The per-query-type weight table of
`AgentServiceMVP._calculate_confidence_score`
(`agent_service_mvp.py:482-488`); `.get(query_type, 0.70)` supplies `0.70`
for the one enum member absent from the dict literal. -/
def typeConfidenceMVP : QueryType → ℚ
  | .marketAnalysis => 85/100
  | .pricePrediction => 75/100
  | .newsSentiment => 80/100
  | .generalCrypto => 70/100
  | .tradingAdvice => 65/100
  | .onChainAnalysis => 70/100

/-- The per-query-type weight table of
`AgentService._calculate_confidence_score` (`agent_service.py:570-577`). -/
def typeConfidenceFull : QueryType → ℚ
  | .marketAnalysis => 9/10
  | .pricePrediction => 7/10
  | .newsSentiment => 85/100
  | .onChainAnalysis => 9/10
  | .generalCrypto => 8/10
  | .tradingAdvice => 6/10

/-- `AgentServiceMVP._calculate_confidence_score`
(`agent_service_mvp.py:467-490`): base 0.7 when no tools are required,
otherwise the success ratio times the type weight, capped at 0.90. -/
def calculateConfidenceScoreMVP (toolsUsed : List ToolCall)
    (requiredTools : Nat) (qt : QueryType) : ℚ :=
  if requiredTools = 0 then 7/10
  else
    let rate : ℚ := (successfulTools toolsUsed : ℚ) / (requiredTools : ℚ)
    min (9/10) (rate * typeConfidenceMVP qt)

/-- `AgentService._calculate_confidence_score` (`agent_service.py:555-579`):
base 0.7 when no tools are required, otherwise the success ratio times the
type weight, capped at 0.95. -/
def calculateConfidenceScoreFull (toolsUsed : List ToolCall)
    (requiredTools : Nat) (qt : QueryType) : ℚ :=
  if requiredTools = 0 then 7/10
  else
    let rate : ℚ := (successfulTools toolsUsed : ℚ) / (requiredTools : ℚ)
    min (95/100) (rate * typeConfidenceFull qt)

theorem typeConfidenceMVP_bounds (qt : QueryType) :
    0 ≤ typeConfidenceMVP qt ∧ typeConfidenceMVP qt ≤ 9/10 := by
  cases qt <;> norm_num [typeConfidenceMVP]

theorem typeConfidenceFull_bounds (qt : QueryType) :
    0 ≤ typeConfidenceFull qt ∧ typeConfidenceFull qt ≤ 1 := by
  cases qt <;> norm_num [typeConfidenceFull]

/-- Conclusion of claim C1, at given inputs: both confidence estimators stay
in `[0,1]`, return exactly `0.7` when no tools are required, and otherwise
return the success ratio times the per-type weight capped at the fixed
ceiling (`0.90` in the MVP service, `0.95` in the full service). -/
def ConfidenceClaim (ts : List ToolCall) (n : Nat) (qt : QueryType) : Prop :=
  (0 ≤ calculateConfidenceScoreMVP ts n qt ∧ calculateConfidenceScoreMVP ts n qt ≤ 1) ∧
  (0 ≤ calculateConfidenceScoreFull ts n qt ∧ calculateConfidenceScoreFull ts n qt ≤ 1) ∧
  (n = 0 → calculateConfidenceScoreMVP ts n qt = 7/10 ∧
    calculateConfidenceScoreFull ts n qt = 7/10) ∧
  (0 < n →
    calculateConfidenceScoreMVP ts n qt =
      min (9/10) ((successfulTools ts : ℚ) / (n : ℚ) * typeConfidenceMVP qt) ∧
    calculateConfidenceScoreFull ts n qt =
      min (95/100) ((successfulTools ts : ℚ) / (n : ℚ) * typeConfidenceFull qt))

/-- C1: the confidence estimator is a pure function with value in `[0,1]`;
it returns the base value 0.7 when `requiredToolCount = 0`, and otherwise
`successfulToolCount / requiredToolCount` times the per-query-type weight
capped at the fixed ceiling, for every tools list with at most
`requiredToolCount` successes and every query type. -/
theorem confidence_score_spec (ts : List ToolCall) (n : Nat) (qt : QueryType)
    (h : successfulTools ts ≤ n) : ConfidenceClaim ts n qt := by
  have hm := typeConfidenceMVP_bounds qt
  have hf := typeConfidenceFull_bounds qt
  constructor
  · unfold calculateConfidenceScoreMVP
    split
    · norm_num
    · rename_i hn
      have hn' : 0 < (n : ℚ) := by
        have : 0 < n := Nat.pos_of_ne_zero hn
        exact_mod_cast this
      have hrate0 : (0:ℚ) ≤ (successfulTools ts : ℚ) / (n : ℚ) :=
        div_nonneg (by positivity) (le_of_lt hn')
      have hrate1 : (successfulTools ts : ℚ) / (n : ℚ) ≤ 1 := by
        rw [div_le_one hn']
        exact_mod_cast h
      constructor
      · apply le_min (by norm_num)
        exact mul_nonneg hrate0 hm.1
      · calc min (9/10) ((successfulTools ts : ℚ) / (n : ℚ) * typeConfidenceMVP qt)
            ≤ 9/10 := min_le_left _ _
          _ ≤ 1 := by norm_num
  refine ⟨?_, ?_, ?_⟩
  · unfold calculateConfidenceScoreFull
    split
    · norm_num
    · rename_i hn
      have hn' : 0 < (n : ℚ) := by
        have : 0 < n := Nat.pos_of_ne_zero hn
        exact_mod_cast this
      have hrate0 : (0:ℚ) ≤ (successfulTools ts : ℚ) / (n : ℚ) :=
        div_nonneg (by positivity) (le_of_lt hn')
      have hrate1 : (successfulTools ts : ℚ) / (n : ℚ) ≤ 1 := by
        rw [div_le_one hn']
        exact_mod_cast h
      constructor
      · apply le_min (by norm_num)
        exact mul_nonneg hrate0 hf.1
      · calc min (95/100) ((successfulTools ts : ℚ) / (n : ℚ) * typeConfidenceFull qt)
            ≤ 95/100 := min_le_left _ _
          _ ≤ 1 := by norm_num
  · intro hn
    simp [calculateConfidenceScoreMVP, calculateConfidenceScoreFull, hn]
  · intro hn
    have hn' : n ≠ 0 := Nat.pos_iff_ne_zero.mp hn
    simp [calculateConfidenceScoreMVP, calculateConfidenceScoreFull, hn']

/-- Witness for C1 at a concrete input: two tool calls of which one failed,
two required tools, price-prediction query. -/
theorem confidence_score_spec_witness :
    successfulTools
      [⟨"coingecko.get_coin_price", [("symbol", "BTC")], some [("price_usd", "43250.30")], none⟩,
       ⟨"ccxt.get_ticker", [("symbol", "BTC/USDT")], none, some "Server ccxt is not running"⟩] ≤ 2 ∧
    ConfidenceClaim
      [⟨"coingecko.get_coin_price", [("symbol", "BTC")], some [("price_usd", "43250.30")], none⟩,
       ⟨"ccxt.get_ticker", [("symbol", "BTC/USDT")], none, some "Server ccxt is not running"⟩]
      2 .pricePrediction :=
  ⟨by decide,
   confidence_score_spec
     [⟨"coingecko.get_coin_price", [("symbol", "BTC")], some [("price_usd", "43250.30")], none⟩,
      ⟨"ccxt.get_ticker", [("symbol", "BTC/USDT")], none, some "Server ccxt is not running"⟩]
     2 .pricePrediction (by decide)⟩

/-! ## String helpers

Python string operations modelled over `List Char` (so that all concrete
instances evaluate by kernel reduction): `str.lower` maps `Char.toLower`
over the characters, `str.strip` drops whitespace at both ends, the `in`
operator on strings is substring containment, `str.startswith` is a prefix
test. -/

/-- Python `query.lower()` viewed as a character list. -/
def lowerChars (s : String) : List Char := s.toList.map Char.toLower

/-- Python `str.strip()`: drop whitespace at both ends. -/
def stripChars (l : List Char) : List Char :=
  ((l.dropWhile Char.isWhitespace).reverse.dropWhile Char.isWhitespace).reverse

/-- Python `needle in hay` on strings: substring containment. -/
def containsSub (hay : List Char) (needle : String) : Bool :=
  decide (needle.toList <:+: hay)

/-- Python `any(word in query_lower for word in words)`. -/
def anyWord (hay : List Char) (ws : List String) : Bool :=
  ws.any (fun w => containsSub hay w)

/-! ## Query classifier -/

/-- A query analysis as returned by `_analyze_query`: the detected type and
the ordered tool-invocation descriptors. -/
structure QueryAnalysis where
  type : QueryType
  tools : List ToolInfo
deriving DecidableEq, Repr

/-- The apostrophe character (in the greeting `what's up`). -/
def apos : Char := Char.ofNat 39

/-- The greeting list of `AgentServiceMVP._analyze_query`
(`agent_service_mvp.py:184`). -/
def greetingsMVP : List (List Char) :=
  ["hi".toList, "hello".toList, "hey".toList, "greetings".toList,
   "good morning".toList, "good afternoon".toList, "good evening".toList,
   "howdy".toList, "sup".toList, ("what".toList ++ [apos] ++ "s up".toList)]

def priceWordsMVP : List String :=
  ["price", "cost", "value", "$", "bitcoin", "btc", "ethereum", "eth"]

def sentimentWordsMVP : List String :=
  ["sentiment", "fear", "greed", "mood", "market", "feeling"]

def newsWordsMVP : List String :=
  ["news", "headlines", "events", "happening", "latest"]

def analysisWordsMVP : List String :=
  ["analysis", "analyze", "market", "trend", "technical"]

/-- The fallback tool set added by `AgentServiceMVP._analyze_query` when no
branch produced any tool (`agent_service_mvp.py:284-297`). -/
def defaultFallbackTools : List ToolInfo :=
  [⟨"coingecko", "get_coin_price", [("symbol", "BTC")]⟩,
   ⟨"feargreed", "get_fear_greed_index", []⟩]

/-- `AgentServiceMVP._analyze_query` (`agent_service_mvp.py:179-303`):
greeting short-circuit, then the price / sentiment / news / analysis keyword
branches accumulating tools and overwriting the query type in order, then
the default fallback tool set when no tool was selected. -/
def analyzeQueryMVP (q : String) : QueryAnalysis :=
  let ql := stripChars (lowerChars q)
  if greetingsMVP.contains ql || greetingsMVP.any (fun g => g.isPrefixOf ql) then
    ⟨.generalCrypto, []⟩
  else
    let st0 : QueryType × List ToolInfo := (.generalCrypto, [])
    let st1 :=
      if anyWord ql priceWordsMVP then
        let symbol :=
          if anyWord ql ["ethereum", "eth"] then "ETH"
          else if anyWord ql ["cardano", "ada"] then "ADA"
          else if anyWord ql ["solana", "sol"] then "SOL"
          else "BTC"
        (QueryType.pricePrediction,
         st0.2 ++ [⟨"coingecko", "get_coin_price", [("symbol", symbol)]⟩,
                   ⟨"ccxt", "get_ticker", [("symbol", symbol ++ "/USDT")]⟩])
      else st0
    let st2 :=
      if anyWord ql sentimentWordsMVP then
        let both :=
          if anyWord ql ["bitcoin", "btc"] && anyWord ql ["ethereum", "eth"] then
            [⟨"coingecko", "get_coin_price", [("symbol", "BTC")]⟩,
             ⟨"coingecko", "get_coin_price", [("symbol", "ETH")]⟩,
             ⟨"ccxt", "get_ticker", [("symbol", "ETH/USDT")]⟩]
          else []
        (QueryType.marketAnalysis,
         st1.2 ++ both ++ [⟨"feargreed", "get_fear_greed_index", []⟩,
                           ⟨"cryptopanic", "get_news", [("filter", "rising")]⟩])
      else st1
    let st3 :=
      if anyWord ql newsWordsMVP then
        (QueryType.newsSentiment,
         st2.2 ++ [⟨"cryptopanic", "get_news", [("filter", "hot")]⟩])
      else st2
    let st4 :=
      if anyWord ql analysisWordsMVP then
        (QueryType.marketAnalysis,
         st3.2 ++ [⟨"coingecko", "get_market_data", []⟩,
                   ⟨"feargreed", "get_fear_greed_index", []⟩])
      else st3
    if st4.2.isEmpty then ⟨st4.1, defaultFallbackTools⟩ else ⟨st4.1, st4.2⟩

def priceWordsFull : List String := ["price", "cost", "value", "$"]

def sentimentWordsFull : List String := ["sentiment", "fear", "greed", "mood"]

def newsWordsFull : List String := ["news", "headlines", "events"]

def whaleWordsFull : List String := ["whale", "large", "transactions", "on-chain"]

def complianceWordsFull : List String :=
  ["audit", "compliance", "contract", "smart contract", "regulatory", "aml", "gdpr", "kyc"]

/-- `AgentService._analyze_query` (`agent_service.py:409-481`): keyword
branches accumulating tools, no greeting short-circuit and no fallback tool
set.  The compliance branch assigns `QueryType.COMPLIANCE_AUDIT`, a member
that does not exist on the `QueryType` enum in `app/schemas/agent.py`, so
executing that branch raises `AttributeError`; it is modelled as the
`Except.error` case. -/
def analyzeQueryFull (q : String) : Except String QueryAnalysis :=
  let ql := lowerChars q
  let st0 : QueryType × List ToolInfo := (.generalCrypto, [])
  let st1 :=
    if anyWord ql priceWordsFull then
      (QueryType.pricePrediction,
       st0.2 ++ [⟨"coingecko", "get_coin_price", [("symbol", "bitcoin")]⟩])
    else st0
  let st2 :=
    if anyWord ql sentimentWordsFull then
      (QueryType.newsSentiment,
       st1.2 ++ [⟨"feargreed", "get_fear_greed_index", []⟩,
                 ⟨"cryptopanic", "get_news", [("filter", "rising")]⟩])
    else st1
  let st3 :=
    if anyWord ql newsWordsFull then
      (QueryType.newsSentiment,
       st2.2 ++ [⟨"cryptopanic", "get_news", [("filter", "hot")]⟩])
    else st2
  let st4 :=
    if anyWord ql whaleWordsFull then
      (QueryType.onChainAnalysis,
       st3.2 ++ [⟨"whaletracker", "get_whale_alerts", [("min_value", "1000000")]⟩])
    else st3
  if anyWord ql complianceWordsFull then
    .error "AttributeError: type object QueryType has no attribute COMPLIANCE_AUDIT"
  else
    .ok ⟨st4.1, st4.2⟩

/-- A query text containing none of the keywords the MVP classifier
recognises (greetings included): every branch condition of
`analyzeQueryMVP` is false. -/
def noRecognizedKeywordMVP (q : String) : Bool :=
  let ql := stripChars (lowerChars q)
  !(greetingsMVP.contains ql) && !(greetingsMVP.any (fun g => g.isPrefixOf ql)) &&
  !(anyWord ql priceWordsMVP) && !(anyWord ql sentimentWordsMVP) &&
  !(anyWord ql newsWordsMVP) && !(anyWord ql analysisWordsMVP)

/-- A query text containing none of the keywords the full classifier
recognises: every branch condition of `analyzeQueryFull` is false. -/
def noRecognizedKeywordFull (q : String) : Bool :=
  let ql := lowerChars q
  !(anyWord ql priceWordsFull) && !(anyWord ql sentimentWordsFull) &&
  !(anyWord ql newsWordsFull) && !(anyWord ql whaleWordsFull) &&
  !(anyWord ql complianceWordsFull)

/-! ## Tool dispatch and the per-query tool loop -/

/-- Python dict insertion `m[k] = v` on an association list: overwrite the
existing binding in place, else append. -/
def dinsert (k : String) (v : α) (m : List (String × α)) : List (String × α) :=
  if m.any (fun p => p.1 = k) then
    m.map (fun p => if p.1 = k then (k, v) else p)
  else m ++ [(k, v)]

/-- A sequence of dict insertions. -/
def dinserts (m : List (String × α)) (l : List (String × α)) : List (String × α) :=
  l.foldl (fun acc p => dinsert p.1 p.2 acc) m

/-- Python dict lookup `m[k]` / `m.get(k)` on an association list. -/
def dlookup (k : String) : List (String × α) → Option α
  | [] => none
  | p :: rest => if p.1 = k then some p.2 else dlookup k rest

/-- The outcome of one `mcp_manager.call_tool` invocation as observed by the
tool loop of `process_query`: a returned dict or a raised exception. -/
abbrev ToolOutcome := Except String MCPResult

/-- `params.get(k, d)`. -/
def lookupParamD (params : List (String × String)) (k d : String) : String :=
  (dlookup k params).getD d

/-- The composite result key of `AgentServiceMVP.process_query`
(`agent_service_mvp.py:88-94`): `get_coin_price` results are keyed by
`get_coin_price_<symbol>`, every other tool by its bare name. -/
def toolKeyMVP (ti : ToolInfo) : String :=
  if ti.tool = "get_coin_price" then
    "get_coin_price_" ++ lookupParamD ti.parameters "symbol" "BTC"
  else ti.tool

/-- The `ToolCall` recorded for a successful invocation. -/
def mkToolCallOk (ti : ToolInfo) (r : MCPResult) : ToolCall :=
  ⟨ti.server ++ "." ++ ti.tool, ti.parameters, some r, none⟩

/-- The `ToolCall` recorded by the MVP loop for a failed invocation. -/
def mkToolCallErr (ti : ToolInfo) (e : String) : ToolCall :=
  ⟨ti.server ++ "." ++ ti.tool, ti.parameters, none, some e⟩

/-- The tool loop of `AgentServiceMVP.process_query`
(`agent_service_mvp.py:68-113`): a successful call is recorded with
`error=None` and its result inserted under the composite key; a failed call
is recorded with its error and excluded from the result mapping. -/
def runToolsMVP (m : List (String × MCPResult)) :
    List (ToolInfo × ToolOutcome) → List ToolCall × List (String × MCPResult)
  | [] => ([], m)
  | (ti, .ok r) :: rest =>
    let p := runToolsMVP (dinsert (toolKeyMVP ti) r m) rest
    (mkToolCallOk ti r :: p.1, p.2)
  | (ti, .error e) :: rest =>
    let p := runToolsMVP m rest
    (mkToolCallErr ti e :: p.1, p.2)

/-- The tool loop of `AgentService.process_query`
(`agent_service.py:111-146`): a successful call is recorded with
`error=None` and its result inserted under the bare tool name; a failed
call hits `continue`, leaving both the `tools_used` list and the result
mapping untouched. -/
def runToolsFull (m : List (String × MCPResult)) :
    List (ToolInfo × ToolOutcome) → List ToolCall × List (String × MCPResult)
  | [] => ([], m)
  | (ti, .ok r) :: rest =>
    let p := runToolsFull (dinsert ti.tool r m) rest
    (mkToolCallOk ti r :: p.1, p.2)
  | (_, .error _) :: rest => runToolsFull m rest

/-! ## Characterisation of the tool loops -/

/-- The MVP tool loop records every required tool, successes as
`mkToolCallOk` and failures as `mkToolCallErr`, in order. -/
theorem runToolsMVP_fst (l : List (ToolInfo × ToolOutcome))
    (m : List (String × MCPResult)) :
    (runToolsMVP m l).1 = l.map (fun x =>
      match x.2 with
      | .ok r => mkToolCallOk x.1 r
      | .error e => mkToolCallErr x.1 e) := by
  induction l generalizing m with
  | nil => rfl
  | cons x rest ih =>
    obtain ⟨ti, o⟩ := x
    cases o with
    | ok r => simp [runToolsMVP, ih]
    | error e => simp [runToolsMVP, ih]

/-- The MVP result mapping is built by dict insertion from the successful
calls only, keyed by the composite key. -/
theorem runToolsMVP_snd (l : List (ToolInfo × ToolOutcome))
    (m : List (String × MCPResult)) :
    (runToolsMVP m l).2 = dinserts m (l.filterMap (fun x =>
      match x.2 with
      | .ok r => some (toolKeyMVP x.1, r)
      | .error _ => none)) := by
  induction l generalizing m with
  | nil => rfl
  | cons x rest ih =>
    obtain ⟨ti, o⟩ := x
    cases o with
    | ok r => simp [runToolsMVP, ih, dinserts]
    | error e => simp [runToolsMVP, ih, dinserts]

/-- The full-service tool loop records only the successful calls. -/
theorem runToolsFull_fst (l : List (ToolInfo × ToolOutcome))
    (m : List (String × MCPResult)) :
    (runToolsFull m l).1 = l.filterMap (fun x =>
      match x.2 with
      | .ok r => some (mkToolCallOk x.1 r)
      | .error _ => none) := by
  induction l generalizing m with
  | nil => rfl
  | cons x rest ih =>
    obtain ⟨ti, o⟩ := x
    cases o with
    | ok r => simp [runToolsFull, ih]
    | error e => simp [runToolsFull, ih]

/-- The full-service result mapping is built by dict insertion from the
successful calls only, keyed by the bare tool name. -/
theorem runToolsFull_snd (l : List (ToolInfo × ToolOutcome))
    (m : List (String × MCPResult)) :
    (runToolsFull m l).2 = dinserts m (l.filterMap (fun x =>
      match x.2 with
      | .ok r => some (x.1.tool, r)
      | .error _ => none)) := by
  induction l generalizing m with
  | nil => rfl
  | cons x rest ih =>
    obtain ⟨ti, o⟩ := x
    cases o with
    | ok r => simp [runToolsFull, ih, dinserts]
    | error e => simp [runToolsFull, ih, dinserts]

/-- C2 counterexample: two required tools, the second one failing.  In
`AgentService.process_query` the failed call is skipped (`continue`), so
`tools_used` holds a single entry — not two entries with `error` set on the
failed one as the claim states. -/
theorem tool_failure_recording_cx :
    (runToolsFull []
      [(⟨"feargreed", "get_fear_greed_index", []⟩, .ok [("index", "58")]),
       (⟨"cryptopanic", "get_news", [("filter", "rising")]⟩,
        .error "Server cryptopanic not found")]).1
      = [mkToolCallOk ⟨"feargreed", "get_fear_greed_index", []⟩ [("index", "58")]] ∧
    (runToolsFull []
      [(⟨"feargreed", "get_fear_greed_index", []⟩, .ok [("index", "58")]),
       (⟨"cryptopanic", "get_news", [("filter", "rising")]⟩,
        .error "Server cryptopanic not found")]).1.length ≠ 2 := by
  decide

/-- C2 amended: a failing tool call never aborts the loop, and failed calls
are excluded from the result mapping in both services.  In the MVP service
`tools_used` has exactly one entry per required tool with `error` set
precisely on the failed calls; in the full service failed calls are skipped
entirely, so `tools_used` consists of exactly the successful calls. -/
theorem tool_failure_recording (l : List (ToolInfo × ToolOutcome)) :
    (runToolsMVP [] l).1.length = l.length ∧
    (runToolsMVP [] l).1 = l.map (fun x =>
      match x.2 with
      | .ok r => mkToolCallOk x.1 r
      | .error e => mkToolCallErr x.1 e) ∧
    (runToolsMVP [] l).2 = dinserts [] (l.filterMap (fun x =>
      match x.2 with
      | .ok r => some (toolKeyMVP x.1, r)
      | .error _ => none)) ∧
    (runToolsFull [] l).1 = l.filterMap (fun x =>
      match x.2 with
      | .ok r => some (mkToolCallOk x.1 r)
      | .error _ => none) ∧
    (runToolsFull [] l).2 = dinserts [] (l.filterMap (fun x =>
      match x.2 with
      | .ok r => some (x.1.tool, r)
      | .error _ => none)) := by
  refine ⟨?_, runToolsMVP_fst l [], runToolsMVP_snd l [],
    runToolsFull_fst l [], runToolsFull_snd l []⟩
  rw [runToolsMVP_fst]
  exact l.length_map _

/-! ## Classifier on keyword-free queries -/

/-- C5 counterexample: on a query containing no recognised keyword the
classifier of `AgentService._analyze_query` returns the general type with
an *empty* tool list — not the fixed default fallback tool set, which is
non-empty and produced only by the MVP classifier. -/
theorem classifier_no_keyword_cx :
    noRecognizedKeywordFull "qqq" = true ∧
    analyzeQueryFull "qqq" = .ok ⟨.generalCrypto, []⟩ ∧
    defaultFallbackTools ≠ [] := by
  decide

/-- C5 amended: on a query containing no recognised keyword neither
classifier fails; the MVP classifier returns the general type with the
fixed default fallback tool set, while the full-service classifier returns
the general type with an empty tool list. -/
theorem classifier_no_keyword (q : String) :
    (noRecognizedKeywordMVP q = true →
      analyzeQueryMVP q = ⟨.generalCrypto, defaultFallbackTools⟩) ∧
    (noRecognizedKeywordFull q = true →
      analyzeQueryFull q = .ok ⟨.generalCrypto, []⟩) := by
  constructor
  · intro h
    unfold noRecognizedKeywordMVP at h
    simp only [Bool.and_eq_true, Bool.not_eq_true'] at h
    obtain ⟨⟨⟨⟨⟨h1, h2⟩, h3⟩, h4⟩, h5⟩, h6⟩ := h
    unfold analyzeQueryMVP
    simp only [h1, h2, h3, h4, h5, h6, Bool.or_self, Bool.false_eq_true,
      if_false, List.isEmpty_nil, if_true]
  · intro h
    unfold noRecognizedKeywordFull at h
    simp only [Bool.and_eq_true, Bool.not_eq_true'] at h
    obtain ⟨⟨⟨⟨h1, h2⟩, h3⟩, h4⟩, h5⟩ := h
    unfold analyzeQueryFull
    simp only [h1, h2, h3, h4, h5, Bool.false_eq_true, if_false]

/-- Witness for C5 at the concrete keyword-free query `"tell me a joke"`. -/
theorem classifier_no_keyword_witness :
    (noRecognizedKeywordMVP "tell me a joke" = true ∧
      analyzeQueryMVP "tell me a joke" = ⟨.generalCrypto, defaultFallbackTools⟩) ∧
    (noRecognizedKeywordFull "tell me a joke" = true ∧
      analyzeQueryFull "tell me a joke" = .ok ⟨.generalCrypto, []⟩) :=
  ⟨⟨by decide, (classifier_no_keyword "tell me a joke").1 (by decide)⟩,
   ⟨by decide, (classifier_no_keyword "tell me a joke").2 (by decide)⟩⟩

/-! ## Session context store -/

/-- One history entry (`{"query": ..., "response": ...}` with the timestamp
and tool-data fields, irrelevant to the round-trip claims, omitted). -/
structure Exchange where
  query : String
  response : String
deriving DecidableEq, Repr

/-- Python `lst[-n:]`: the at-most-`n` most recent entries. -/
def lastN (n : Nat) (l : List α) : List α := l.drop (l.length - n)

/-- Python `response[:200]`: the first 200 characters. -/
def takeChars (r : String) (n : Nat) : String := ⟨r.toList.take n⟩

/-- A stored session record (`session_data` as serialised to Redis by
`AgentService`, or the MVP's in-memory session dict). -/
structure SessionRecord where
  sessionId : String
  userId : Option String
  status : String
  messageCount : Nat
  history : List Exchange
deriving DecidableEq, Repr

/-- The Redis key/value store restricted to session keys. -/
abbrev RedisStore := List (String × SessionRecord)

/-- `f"session:{session_id}"`. -/
def sessionKey (sid : String) : String := "session:" ++ sid

/-- `AgentServiceMVP._update_session_context`
(`agent_service_mvp.py:492-518`): the appended history entry stores
`response[:200] + "..."`, and history is truncated to the last 10
entries. -/
def updateSessionContextMVP (s : SessionRecord) (q r : String) : SessionRecord :=
  {s with history := lastN 10 (s.history ++ [⟨q, takeChars r 200 ++ "..."⟩]),
          messageCount := s.messageCount + 1}

/-- The record written back by `AgentService._update_session_context`: the
exchange appended verbatim, history truncated to the last 20 entries. -/
def appendExchangeFull (sd : SessionRecord) (q r : String) : SessionRecord :=
  {sd with history := lastN 20 (sd.history ++ [⟨q, r⟩]),
           messageCount := sd.messageCount + 1}

/-- `AgentService._update_session_context` (`agent_service.py:581-623`):
read the record, append the exchange verbatim, truncate to the last 20
entries and write the record back (TTL refresh omitted); an absent record
leaves the store unchanged. -/
def updateSessionContextFull (st : RedisStore) (sid q r : String) : RedisStore :=
  match dlookup (sessionKey sid) st with
  | none => st
  | some sd => dinsert (sessionKey sid) (appendExchangeFull sd q r) st

/-- `AgentService.create_session` (`agent_service.py:303-349`) with the
generated uuid hex passed explicitly; when the Redis client is absent the
session is not persisted but a valid response object is still returned. -/
def createSession (redis : Option RedisStore) (hexId : String)
    (userId : Option String) : SessionRecord × Option RedisStore :=
  let sid := "session_" ++ hexId
  let sd : SessionRecord := ⟨sid, userId, "active", 0, []⟩
  match redis with
  | none => (sd, none)
  | some st => (sd, some (dinsert (sessionKey sid) sd st))

/-- `AgentService.get_session` (`agent_service.py:351-366`): `None` both
when the store is absent and when the key is missing. -/
def getSession (redis : Option RedisStore) (sid : String) : Option SessionRecord :=
  match redis with
  | none => none
  | some st => dlookup (sessionKey sid) st

/-- `AgentService.delete_session` (`agent_service.py:368-378`): `False`
when the store is absent, else whether a key was deleted. -/
def deleteSession (redis : Option RedisStore) (sid : String) : Bool :=
  match redis with
  | none => false
  | some st => (dlookup (sessionKey sid) st).isSome

/-- `AgentService._get_session_context` (`agent_service.py:483-495`)
restricted to the history slot: empty when the store is absent or the key
is missing. -/
def getSessionContextHist (redis : Option RedisStore) (sid : String) :
    List Exchange :=
  match redis with
  | none => []
  | some st =>
    match dlookup (sessionKey sid) st with
    | none => []
    | some sd => sd.history

/-! ## Dict-insertion lemmas -/

theorem dlookup_map_overwrite (k : String) (v : α) (m : List (String × α))
    (h : m.any (fun p => p.1 = k) = true) :
    dlookup k (m.map (fun p => if p.1 = k then (k, v) else p)) = some v := by
  induction m with
  | nil => simp at h
  | cons p rest ih =>
    simp only [List.any_cons, Bool.or_eq_true, decide_eq_true_eq] at h
    by_cases hp : p.1 = k
    · simp [dlookup, hp]
    · have hr : rest.any (fun p => p.1 = k) = true := by
        rcases h with h | h
        · exact absurd h hp
        · simpa using h
      simpa [dlookup, hp] using ih hr

theorem dlookup_append_new (k : String) (v : α) (m : List (String × α))
    (h : m.any (fun p => p.1 = k) = false) :
    dlookup k (m ++ [(k, v)]) = some v := by
  induction m with
  | nil => simp [dlookup]
  | cons p rest ih =>
    simp only [List.any_cons, Bool.or_eq_false_iff, decide_eq_false_iff_not] at h
    simpa [dlookup, h.1] using ih (by simpa using h.2)

/-- Looking up the just-inserted key returns the just-inserted value. -/
theorem dlookup_dinsert (k : String) (v : α) (m : List (String × α)) :
    dlookup k (dinsert k v m) = some v := by
  unfold dinsert
  cases hb : m.any (fun p => p.1 = k) with
  | true =>
    simp only [hb, if_true]
    exact dlookup_map_overwrite k v m hb
  | false =>
    simp only [hb, Bool.false_eq_true, if_false]
    exact dlookup_append_new k v m hb

theorem dlookup_map_ne (k k' : String) (v : α) (m : List (String × α))
    (h : k ≠ k') :
    dlookup k' (m.map (fun p => if p.1 = k then (k, v) else p)) =
      dlookup k' m := by
  induction m with
  | nil => rfl
  | cons p rest ih =>
    simp only [List.map_cons]
    by_cases hp : p.1 = k
    · have hne : p.1 ≠ k' := by rw [hp]; exact h
      rw [if_pos hp]
      simp [dlookup, h, hne, ih]
    · rw [if_neg hp]
      by_cases hk' : p.1 = k'
      · simp [dlookup, hk']
      · simp [dlookup, hk', ih]

theorem dlookup_append_ne (k k' : String) (v : α) (m : List (String × α))
    (h : k ≠ k') :
    dlookup k' (m ++ [(k, v)]) = dlookup k' m := by
  induction m with
  | nil => simp [dlookup, h]
  | cons p rest ih =>
    by_cases hk' : p.1 = k'
    · simp [dlookup, hk']
    · simp [dlookup, hk', ih]

/-- Inserting under one key leaves lookups of other keys unchanged. -/
theorem dlookup_dinsert_ne (k k' : String) (v : α) (m : List (String × α))
    (h : k ≠ k') :
    dlookup k' (dinsert k v m) = dlookup k' m := by
  unfold dinsert
  split
  · exact dlookup_map_ne k k' v m h
  · exact dlookup_append_ne k k' v m h

/-! ## lastN lemmas -/

theorem getLast?_lastN (n : Nat) (hn : 0 < n) (l : List α) (e : α) :
    (lastN n (l ++ [e])).getLast? = some e := by
  unfold lastN
  have hle : (l ++ [e]).length - n ≤ l.length := by
    rw [List.length_append, List.length_singleton]
    omega
  rw [List.drop_append_of_le_length hle, List.getLast?_concat]

theorem length_lastN (n : Nat) (l : List α) : (lastN n l).length ≤ n := by
  unfold lastN
  rw [List.length_drop]
  omega

/-! ## C4: session round-trip -/

/-- C4 counterexample: the MVP service does not store the appended
response verbatim — it stores `response[:200] + "..."`, so even a short
response is read back with a trailing ellipsis. -/
theorem session_roundtrip_cx :
    (updateSessionContextMVP ⟨"session_abc", none, "active", 0, []⟩
      "hi" "Hello there").history = [⟨"hi", "Hello there..."⟩] ∧
    ("Hello there..." : String) ≠ "Hello there" := by
  decide

/-- C4 amended: appending an exchange to an existing session and reading it
back returns, in the full service, exactly the appended query/response
pair, with history truncated to the 20 most recent entries; in the MVP
service the query is returned unchanged but the response is stored as its
first 200 characters followed by `"..."`, with history truncated to the 10
most recent entries. -/
theorem session_roundtrip (st : RedisStore) (sid q r : String)
    (sd : SessionRecord) (h : dlookup (sessionKey sid) st = some sd) :
    (dlookup (sessionKey sid) (updateSessionContextFull st sid q r) =
        some (appendExchangeFull sd q r) ∧
      (appendExchangeFull sd q r).history.getLast? = some ⟨q, r⟩ ∧
      (appendExchangeFull sd q r).history.length ≤ 20 ∧
      (appendExchangeFull sd q r).history = lastN 20 (sd.history ++ [⟨q, r⟩])) ∧
    ((updateSessionContextMVP sd q r).history.getLast? =
        some ⟨q, takeChars r 200 ++ "..."⟩ ∧
      (updateSessionContextMVP sd q r).history.length ≤ 10) := by
  refine ⟨⟨?_, ?_, ?_, rfl⟩, ?_, ?_⟩
  · unfold updateSessionContextFull
    rw [h]
    exact dlookup_dinsert _ _ _
  · exact getLast?_lastN 20 (by norm_num) _ _
  · exact length_lastN 20 _
  · exact getLast?_lastN 10 (by norm_num) _ _
  · exact length_lastN 10 _

/-- Witness for C4 at a concrete store holding one session with one prior
exchange. -/
theorem session_roundtrip_witness :
    dlookup (sessionKey "abc")
        ([("session:abc", (⟨"session_abc", none, "active", 1,
          [⟨"q0", "r0"⟩]⟩ : SessionRecord))] : RedisStore) =
      some ⟨"session_abc", none, "active", 1, [⟨"q0", "r0"⟩]⟩ ∧
    ((dlookup (sessionKey "abc") (updateSessionContextFull
        [("session:abc", ⟨"session_abc", none, "active", 1, [⟨"q0", "r0"⟩]⟩)]
        "abc" "q1" "r1") =
        some (appendExchangeFull ⟨"session_abc", none, "active", 1, [⟨"q0", "r0"⟩]⟩ "q1" "r1") ∧
      (appendExchangeFull ⟨"session_abc", none, "active", 1, [⟨"q0", "r0"⟩]⟩ "q1" "r1").history.getLast? = some ⟨"q1", "r1"⟩ ∧
      (appendExchangeFull ⟨"session_abc", none, "active", 1, [⟨"q0", "r0"⟩]⟩ "q1" "r1").history.length ≤ 20 ∧
      (appendExchangeFull ⟨"session_abc", none, "active", 1, [⟨"q0", "r0"⟩]⟩ "q1" "r1").history = lastN 20 ([⟨"q0", "r0"⟩] ++ [⟨"q1", "r1"⟩])) ∧
    ((updateSessionContextMVP ⟨"session_abc", none, "active", 1, [⟨"q0", "r0"⟩]⟩
        "q1" "r1").history.getLast? = some ⟨"q1", takeChars "r1" 200 ++ "..."⟩ ∧
      (updateSessionContextMVP ⟨"session_abc", none, "active", 1, [⟨"q0", "r0"⟩]⟩
        "q1" "r1").history.length ≤ 10)) :=
  ⟨by decide,
   session_roundtrip
     [("session:abc", ⟨"session_abc", none, "active", 1, [⟨"q0", "r0"⟩]⟩)]
     "abc" "q1" "r1"
     ⟨"session_abc", none, "active", 1, [⟨"q0", "r0"⟩]⟩ (by decide)⟩

/-! ## C7: session store unavailable -/

/-- C7: with no Redis client, `create_session` returns a valid active
session object and persists nothing, `get_session` for the created id
returns not-found, `delete_session` returns `False` and the session
context is empty; none of these operations can raise (they are total
functions of the absent store). -/
theorem session_store_unavailable (hexId : String) (userId : Option String)
    (sid : String) :
    (createSession none hexId userId).1.status = "active" ∧
    (createSession none hexId userId).1.sessionId = "session_" ++ hexId ∧
    (createSession none hexId userId).1.messageCount = 0 ∧
    (createSession none hexId userId).2 = none ∧
    getSession none ((createSession none hexId userId).1.sessionId) = none ∧
    deleteSession none sid = false ∧
    getSessionContextHist none sid = [] := by
  simp [createSession, getSession, deleteSession, getSessionContextHist]

/-! ## Streaming path -/

/-- One event yielded by `AgentService.stream_query_response`: its `type`
and `content` fields (the timestamp is omitted). -/
structure StreamEvent where
  type : String
  content : String
deriving DecidableEq, Repr

/-- One chunk yielded by `GeminiClient.stream_completion`: the delta
content, the finish reason and the optional `error` field. -/
structure StreamChunk where
  deltaContent : String
  finishReason : String
  err : Option String
deriving DecidableEq, Repr

/-- `GeminiClient.stream_completion` (`gemini_client.py:214-251`) with the
outcome of the underlying `chat_completion` call passed explicitly: on
success it yields a single chunk holding the whole content with
finish_reason `"stop"`; on any exception it yields a single chunk with
empty delta content, finish_reason `"error"` and the error message, and
never re-raises. -/
def streamCompletion (outcome : Except String String) : List StreamChunk :=
  match outcome with
  | .ok content => [⟨content, "stop", none⟩]
  | .error e => [⟨"", "error", some e⟩]

/-- The `content` events `stream_query_response` emits while consuming
chunks (`agent_service.py:278-288`): a chunk yields one only when its delta
content is truthy, i.e. non-empty. -/
def contentEvents (chunks : List StreamChunk) : List StreamEvent :=
  chunks.filterMap (fun c =>
    if c.deltaContent ≠ "" then some ⟨"content", c.deltaContent⟩ else none)

/-- The per-tool event of the streaming tool loop
(`agent_service.py:238-258`). -/
def toolEvent (x : ToolInfo × ToolOutcome) : StreamEvent :=
  match x.2 with
  | .ok _ => ⟨"tool_result", "Retrieved data from " ++ x.1.server⟩
  | .error e =>
    ⟨"tool_error", "Failed to get data from " ++ x.1.server ++ ": " ++ e⟩

/-- `AgentService.stream_query_response` (`agent_service.py:199-301`) on
the path where no exception escapes the generator body (the tool loop
catches per-tool failures and `stream_completion` catches LLM failures),
with tool-call and LLM behaviour passed explicitly: `start`, `analysis`,
the `tools` notice when tools exist, per-tool events, `generating`, the
content events, then `complete`. -/
def streamQueryResponse (tools : List (ToolInfo × ToolOutcome))
    (llm : Except String String) : List StreamEvent :=
  [⟨"start", ""⟩, ⟨"analysis", "Analyzing your query..."⟩]
  ++ (if tools.isEmpty then []
      else [⟨"tools", "Fetching data from " ++ toString tools.length ++ " sources..."⟩])
  ++ tools.map toolEvent
  ++ [⟨"generating", "Analyzing data and generating response..."⟩]
  ++ contentEvents (streamCompletion llm)
  ++ [⟨"complete", ""⟩]

/-- C9: `stream_completion` is total: whatever the underlying
`chat_completion` call does, it yields exactly one chunk; on failure that
chunk has empty delta content, finish_reason `"error"` and carries the
error, and the stream then terminates. -/
theorem stream_completion_total (e c : String) :
    streamCompletion (.error e) = [⟨"", "error", some e⟩] ∧
    (streamCompletion (.error e)).length = 1 ∧
    streamCompletion (.ok c) = [⟨c, "stop", none⟩] :=
  ⟨rfl, rfl, rfl⟩

/-- C3 counterexample: on the streaming path with one required tool and an
LLM failure after the `generating` event, the emitted sequence contains
*no* `error` event and terminates with a `complete` event — the failure is
swallowed by `stream_completion`, whose error chunk has empty delta content
and is therefore filtered out. -/
theorem stream_llm_failure_cx :
    ((streamQueryResponse
        [(⟨"coingecko", "get_coin_price", [("symbol", "bitcoin")]⟩,
          .ok [("price_usd", "43250.3")])]
        (.error "API request failed: 503")).filter
        (fun ev => ev.type = "error")).length = 0 ∧
    (streamQueryResponse
        [(⟨"coingecko", "get_coin_price", [("symbol", "bitcoin")]⟩,
          .ok [("price_usd", "43250.3")])]
        (.error "API request failed: 503")).getLast? =
      some ⟨"complete", ""⟩ := by
  decide

/-- Every per-tool event has type `tool_result` or `tool_error`. -/
theorem toolEvent_type (x : ToolInfo × ToolOutcome) :
    (toolEvent x).type = "tool_result" ∨ (toolEvent x).type = "tool_error" := by
  obtain ⟨ti, o⟩ := x
  cases o with
  | ok r => exact Or.inl rfl
  | error e => exact Or.inr rfl

/-- C3 amended: if the LLM call fails after the `generating` event has been
emitted, `stream_completion` converts the failure into an error chunk with
empty delta content, so `stream_query_response` emits no `error` event and
no `content` event, and the sequence terminates with exactly one `complete`
event. -/
theorem stream_llm_failure (tools : List (ToolInfo × ToolOutcome))
    (e : String) :
    (streamQueryResponse tools (.error e)).filter
        (fun ev => ev.type = "error") = [] ∧
    (streamQueryResponse tools (.error e)).filter
        (fun ev => ev.type = "content") = [] ∧
    (streamQueryResponse tools (.error e)).filter
        (fun ev => ev.type = "complete") = [⟨"complete", ""⟩] ∧
    (streamQueryResponse tools (.error e)).getLast? = some ⟨"complete", ""⟩ ∧
    (⟨"generating", "Analyzing data and generating response..."⟩ : StreamEvent)
      ∈ streamQueryResponse tools (.error e) := by
  have hmap : ∀ s : String, s ≠ "tool_result" → s ≠ "tool_error" →
      (tools.map toolEvent).filter (fun ev => ev.type = s) = [] := by
    intro s h1 h2
    apply List.filter_eq_nil_iff.mpr
    intro a ha
    obtain ⟨x, _, hx⟩ := List.mem_map.mp ha
    rcases toolEvent_type x with ht | ht <;>
      simp [← hx, ht, Ne.symm h1, Ne.symm h2]
  have hce : contentEvents (streamCompletion (.error e)) = [] := by
    simp [streamCompletion, contentEvents]
  unfold streamQueryResponse
  rw [hce]
  refine ⟨?_, ?_, ?_, ?_, ?_⟩
  · simp only [List.filter_append, hmap "error" (by decide) (by decide)]
    split <;> simp [List.filter]
  · simp only [List.filter_append, hmap "content" (by decide) (by decide)]
    split <;> simp [List.filter]
  · simp only [List.filter_append, hmap "complete" (by decide) (by decide)]
    split <;> simp [List.filter]
  · simp only [← List.append_assoc, List.append_nil]
    exact List.getLast?_concat _
  · simp

/-! ## Tool dispatcher -/

/-- The per-server state tracked by `MCPManager` (`mcp_manager.py:22-30`),
restricted to the `status` field consulted by `call_tool`. -/
structure MCPServerSt where
  status : String
deriving DecidableEq, Repr

/-- The observable outcome of a dispatcher call: a returned value, or a
raised `MCPServerError` carrying a message and the originating server
name. -/
inductive DispatchOutcome where
  | ok (v : MCPResult)
  | raised (message : String) (serverName : Option String)
deriving DecidableEq, Repr

/-- `MCPManager.call_tool` (`mcp_manager.py:176-195`): an unknown server or
a server whose status is not `"running"` raises `MCPServerError` carrying
the server name before the underlying HTTP/process call is attempted; the
outcome of that underlying network call is passed explicitly as `net`, and
its failure is re-raised as `MCPServerError` carrying the server name. -/
def callToolDispatch (servers : List (String × MCPServerSt))
    (serverName _toolName : String) (net : Except String MCPResult) :
    DispatchOutcome :=
  match dlookup serverName servers with
  | none => .raised ("Server " ++ serverName ++ " not found") (some serverName)
  | some s =>
    if s.status ≠ "running" then
      .raised ("Server " ++ serverName ++ " is not running") (some serverName)
    else
      match net with
      | .ok v => .ok v
      | .error e => .raised ("Tool call failed: " ++ e) (some serverName)

/-- The mock server registry of `MCPManagerMVP.initialize`
(`mcp_manager_mvp.py:41-89`). -/
def mvpServerNames : List String :=
  ["coingecko", "ccxt", "feargreed", "cryptopanic", "firecrawl"]

/-- The dict returned by `MCPManagerMVP.call_tool` for an unknown server
(`mcp_manager_mvp.py:109-111`). -/
def unknownServerResult (serverName : String) : MCPResult :=
  [("error", "Server " ++ serverName ++ " not available"),
   ("mock_response", "True")]

/-- `MCPManagerMVP.call_tool` (`mcp_manager_mvp.py:107-138`): it returns a
dict in every case and never raises — an unknown server yields an
error dict, a known server yields the generated mock response (passed
explicitly as `gen`, since it is produced with `random`) updated with
metadata keys. -/
def callToolMVP (servers : List String) (serverName toolName : String)
    (gen : MCPResult) (ts : String) : MCPResult :=
  if servers.contains serverName then
    dinserts gen [("server", serverName), ("tool", toolName),
                  ("timestamp", ts), ("mock_data", "True")]
  else
    unknownServerResult serverName

/-- `MCPManagerMVP.call_tool` seen through the dispatcher interface: its
outcome is always a normal return, never a raised error. -/
def callToolMVPDispatch (servers : List String) (serverName toolName : String)
    (gen : MCPResult) (ts : String) : DispatchOutcome :=
  .ok (callToolMVP servers serverName toolName gen ts)

/-- C6 counterexample: the MVP dispatcher called with an unknown server
name does not raise a typed dispatch error — it returns a dict carrying an
`"error"` key. -/
theorem dispatch_typed_error_cx :
    callToolMVPDispatch mvpServerNames "kraken" "get_ticker" []
        "2026-10-12T00:00:00" =
      .ok (unknownServerResult "kraken") ∧
    dlookup "error" (unknownServerResult "kraken") =
      some "Server kraken not available" := by
  decide

/-- C6 amended: the full manager raises `MCPServerError` carrying the
server name when the server is unknown or not running, without attempting
the network call (the outcome is independent of the network behaviour);
for a known running server it returns the call result, or raises
`MCPServerError` carrying the server name if the underlying call fails.
The MVP manager never raises: every call, an unknown server included,
returns a dict. -/
theorem dispatch_spec (servers : List (String × MCPServerSt)) (n t : String)
    (net net2 : Except String MCPResult) :
    (dlookup n servers = none →
      callToolDispatch servers n t net =
        .raised ("Server " ++ n ++ " not found") (some n) ∧
      callToolDispatch servers n t net = callToolDispatch servers n t net2) ∧
    (∀ s, dlookup n servers = some s → s.status ≠ "running" →
      callToolDispatch servers n t net =
        .raised ("Server " ++ n ++ " is not running") (some n) ∧
      callToolDispatch servers n t net = callToolDispatch servers n t net2) ∧
    (∀ s, dlookup n servers = some s → s.status = "running" →
      (∀ v, net = .ok v → callToolDispatch servers n t net = .ok v) ∧
      (∀ e, net = .error e → callToolDispatch servers n t net =
        .raised ("Tool call failed: " ++ e) (some n))) ∧
    (∀ (ms : List String) (nm tl : String) (gen : MCPResult) (ts : String),
      ∃ v, callToolMVPDispatch ms nm tl gen ts = .ok v) := by
  refine ⟨?_, ?_, ?_, ?_⟩
  · intro h
    constructor <;> simp [callToolDispatch, h]
  · intro s hs hst
    constructor <;> simp [callToolDispatch, hs, hst]
  · intro s hs hst
    constructor
    · intro v hv
      simp [callToolDispatch, hs, hst, hv]
    · intro e he
      simp [callToolDispatch, hs, hst, he]
  · intro ms nm tl gen ts
    exact ⟨callToolMVP ms nm tl gen ts, rfl⟩

/-- Witness for C6: a registry with a running and a stopped server,
exercising the unknown-server, stopped-server, successful-call and
failed-call cases of the dispatcher, and the MVP manager's no-raise
behaviour. -/
theorem dispatch_spec_witness :
    (callToolDispatch [("coingecko", ⟨"running"⟩), ("ccxt", ⟨"error"⟩)]
        "kraken" "get_ticker" (.ok [("a", "1")]) =
        .raised ("Server " ++ "kraken" ++ " not found") (some "kraken") ∧
      callToolDispatch [("coingecko", ⟨"running"⟩), ("ccxt", ⟨"error"⟩)]
        "kraken" "get_ticker" (.ok [("a", "1")]) =
        callToolDispatch [("coingecko", ⟨"running"⟩), ("ccxt", ⟨"error"⟩)]
          "kraken" "get_ticker" (.error "timeout")) ∧
    (callToolDispatch [("coingecko", ⟨"running"⟩), ("ccxt", ⟨"error"⟩)]
        "ccxt" "get_ticker" (.ok [("a", "1")]) =
        .raised ("Server " ++ "ccxt" ++ " is not running") (some "ccxt") ∧
      callToolDispatch [("coingecko", ⟨"running"⟩), ("ccxt", ⟨"error"⟩)]
        "ccxt" "get_ticker" (.ok [("a", "1")]) =
        callToolDispatch [("coingecko", ⟨"running"⟩), ("ccxt", ⟨"error"⟩)]
          "ccxt" "get_ticker" (.error "timeout")) ∧
    callToolDispatch [("coingecko", ⟨"running"⟩), ("ccxt", ⟨"error"⟩)]
      "coingecko" "get_coin_price" (.ok [("a", "1")]) = .ok [("a", "1")] ∧
    callToolDispatch [("coingecko", ⟨"running"⟩), ("ccxt", ⟨"error"⟩)]
      "coingecko" "get_coin_price" (.error "boom") =
      .raised ("Tool call failed: " ++ "boom") (some "coingecko") ∧
    (∃ v, callToolMVPDispatch mvpServerNames "kraken" "get_ticker" []
      "2026-10-12T00:00:01" = .ok v) :=
  ⟨(dispatch_spec [("coingecko", ⟨"running"⟩), ("ccxt", ⟨"error"⟩)]
      "kraken" "get_ticker" (.ok [("a", "1")]) (.error "timeout")).1 (by decide),
   (dispatch_spec [("coingecko", ⟨"running"⟩), ("ccxt", ⟨"error"⟩)]
      "ccxt" "get_ticker" (.ok [("a", "1")]) (.error "timeout")).2.1
     ⟨"error"⟩ (by decide) (by decide),
   ((dispatch_spec [("coingecko", ⟨"running"⟩), ("ccxt", ⟨"error"⟩)]
      "coingecko" "get_coin_price" (.ok [("a", "1")]) (.error "timeout")).2.2.1
     ⟨"running"⟩ (by decide) (by decide)).1 [("a", "1")] rfl,
   ((dispatch_spec [("coingecko", ⟨"running"⟩), ("ccxt", ⟨"error"⟩)]
      "coingecko" "get_coin_price" (.error "boom") (.error "timeout")).2.2.1
     ⟨"running"⟩ (by decide) (by decide)).2 "boom" rfl,
   (dispatch_spec [] "x" "y" (.ok []) (.ok [])).2.2.2
     mvpServerNames "kraken" "get_ticker" [] "2026-10-12T00:00:01"⟩

/-! ## C10: unknown server in the MVP pipeline -/

/-- C10: in the MVP pipeline a tool invocation naming a server absent from
the registry never raises: `MCPManagerMVP.call_tool` returns the error
dict, `process_query` records a `ToolCall` with `error = None` holding that
dict as its result, and the confidence computation counts the call as
successful. -/
theorem unknown_server_counted_successful (s t : String)
    (params : List (String × String)) (gen : MCPResult) (ts : String)
    (h : mvpServerNames.contains s = false) :
    callToolMVP mvpServerNames s t gen ts = unknownServerResult s ∧
    dlookup "error" (unknownServerResult s) =
      some ("Server " ++ s ++ " not available") ∧
    (runToolsMVP []
      [(⟨s, t, params⟩, .ok (callToolMVP mvpServerNames s t gen ts))]).1 =
      [mkToolCallOk ⟨s, t, params⟩ (unknownServerResult s)] ∧
    successfulTools (runToolsMVP []
      [(⟨s, t, params⟩, .ok (callToolMVP mvpServerNames s t gen ts))]).1 = 1 := by
  have hc : callToolMVP mvpServerNames s t gen ts = unknownServerResult s := by
    unfold callToolMVP
    rw [h]
    simp
  refine ⟨hc, ?_, ?_, ?_⟩
  · simp [unknownServerResult, dlookup]
  · rw [hc]
    simp [runToolsMVP]
  · rw [hc]
    simp [runToolsMVP, successfulTools, mkToolCallOk, errFalsy]

/-- Witness for C10 at the concrete unknown server name `"binance"`. -/
theorem unknown_server_counted_successful_witness :
    mvpServerNames.contains "binance" = false ∧
    (callToolMVP mvpServerNames "binance" "get_ticker" [("x", "1")] "ts" =
        unknownServerResult "binance" ∧
      dlookup "error" (unknownServerResult "binance") =
        some ("Server " ++ "binance" ++ " not available") ∧
      (runToolsMVP []
        [(⟨"binance", "get_ticker", [("symbol", "BTC/USDT")]⟩,
          .ok (callToolMVP mvpServerNames "binance" "get_ticker" [("x", "1")] "ts"))]).1 =
        [mkToolCallOk ⟨"binance", "get_ticker", [("symbol", "BTC/USDT")]⟩
          (unknownServerResult "binance")] ∧
      successfulTools (runToolsMVP []
        [(⟨"binance", "get_ticker", [("symbol", "BTC/USDT")]⟩,
          .ok (callToolMVP mvpServerNames "binance" "get_ticker" [("x", "1")] "ts"))]).1 = 1) :=
  ⟨by decide,
   unknown_server_counted_successful "binance" "get_ticker"
     [("symbol", "BTC/USDT")] [("x", "1")] "ts" (by decide)⟩

/-! ## C8: result attribution for duplicate tool names -/

/-- C8 counterexample: in `AgentService.process_query` the result mapping
is keyed by the bare tool name, so two `get_coin_price` invocations with
different symbols collide — the mapping ends up with a single key holding
only the second result, and the first result appears under no key. -/
theorem composite_key_cx :
    (runToolsFull []
      [(⟨"coingecko", "get_coin_price", [("symbol", "BTC")]⟩,
        .ok [("price_usd", "43250.3")]),
       (⟨"coingecko", "get_coin_price", [("symbol", "ETH")]⟩,
        .ok [("price_usd", "2650.45")])]).2
      = [("get_coin_price", [("price_usd", "2650.45")])] ∧
    ((runToolsFull []
      [(⟨"coingecko", "get_coin_price", [("symbol", "BTC")]⟩,
        .ok [("price_usd", "43250.3")]),
       (⟨"coingecko", "get_coin_price", [("symbol", "ETH")]⟩,
        .ok [("price_usd", "2650.45")])]).2.all
      (fun p => p.2 ≠ [("price_usd", "43250.3")])) = true := by
  decide

/-- C8 amended: only the MVP pipeline disambiguates identically-named
tools, and only for `get_coin_price`: its results are keyed by the
composite key `get_coin_price_<symbol>`, so two price lookups for distinct
symbols both appear in the result mapping under distinct keys.  The full
service keys results by bare tool name, so same-named invocations collide
(last write wins). -/
theorem composite_key_mvp (s1 s2 : String) (r1 r2 : MCPResult)
    (h : s1 ≠ s2) :
    dlookup ("get_coin_price_" ++ s1)
      (runToolsMVP []
        [(⟨"coingecko", "get_coin_price", [("symbol", s1)]⟩, .ok r1),
         (⟨"coingecko", "get_coin_price", [("symbol", s2)]⟩, .ok r2)]).2 =
      some r1 ∧
    dlookup ("get_coin_price_" ++ s2)
      (runToolsMVP []
        [(⟨"coingecko", "get_coin_price", [("symbol", s1)]⟩, .ok r1),
         (⟨"coingecko", "get_coin_price", [("symbol", s2)]⟩, .ok r2)]).2 =
      some r2 := by
  have hkey : ("get_coin_price_" ++ s1 : String) ≠ "get_coin_price_" ++ s2 := by
    intro he
    apply h
    have hd := congrArg String.data he
    rw [String.data_append, String.data_append] at hd
    exact String.ext (List.append_cancel_left hd)
  have hk1 : toolKeyMVP ⟨"coingecko", "get_coin_price", [("symbol", s1)]⟩ =
      "get_coin_price_" ++ s1 := by
    simp [toolKeyMVP, lookupParamD, dlookup]
  have hk2 : toolKeyMVP ⟨"coingecko", "get_coin_price", [("symbol", s2)]⟩ =
      "get_coin_price_" ++ s2 := by
    simp [toolKeyMVP, lookupParamD, dlookup]
  have hm : (runToolsMVP []
      [(⟨"coingecko", "get_coin_price", [("symbol", s1)]⟩, .ok r1),
       (⟨"coingecko", "get_coin_price", [("symbol", s2)]⟩, .ok r2)]).2 =
      dinsert ("get_coin_price_" ++ s2) r2
        (dinsert ("get_coin_price_" ++ s1) r1 []) := by
    simp [runToolsMVP, hk1, hk2]
  rw [hm]
  constructor
  · rw [dlookup_dinsert_ne _ _ _ _ (Ne.symm hkey)]
    exact dlookup_dinsert _ _ _
  · exact dlookup_dinsert _ _ _

/-- Witness for C8 at the concrete symbols `BTC` and `ETH`. -/
theorem composite_key_mvp_witness :
    ("BTC" : String) ≠ "ETH" ∧
    (dlookup ("get_coin_price_" ++ "BTC")
      (runToolsMVP []
        [(⟨"coingecko", "get_coin_price", [("symbol", "BTC")]⟩,
          .ok [("price_usd", "43250.3")]),
         (⟨"coingecko", "get_coin_price", [("symbol", "ETH")]⟩,
          .ok [("price_usd", "2650.45")])]).2 = some [("price_usd", "43250.3")] ∧
    dlookup ("get_coin_price_" ++ "ETH")
      (runToolsMVP []
        [(⟨"coingecko", "get_coin_price", [("symbol", "BTC")]⟩,
          .ok [("price_usd", "43250.3")]),
         (⟨"coingecko", "get_coin_price", [("symbol", "ETH")]⟩,
          .ok [("price_usd", "2650.45")])]).2 = some [("price_usd", "2650.45")]) :=
  ⟨by decide,
   composite_key_mvp "BTC" "ETH" [("price_usd", "43250.3")]
     [("price_usd", "2650.45")] (by decide)⟩

end Spectra
